import Mathlib

/-!
Verification development for the `rag-python` backend
(`backend/app/main.py`, `backend/app/services/rag_service.py`).

Shallow embedding conventions:
* Python strings that carry document text are modelled as `List Char`
  (abbreviated `Text`), so that slicing (`s[:200]`) and length are the
  list operations; identifiers, questions and answers stay `String`.
* Python dicts used as chunk metadata are insertion-ordered association
  lists `List (String × MVal)`; `dict.update` is `dictUpdate`.
* External collaborators (the Chroma vector store, the OpenAI LLM, the
  Sui registry client, the Walrus client) are modelled from the spec's
  contracts, as oracles or as plain functions over an explicit store.
* Python exceptions are `Except String`; a `try/except` that swallows
  the error is a `match` whose error branch continues.
-/

namespace RagPython

/-- A metadata value as stored in a chunk's Python metadata dict:
a string, an integer, or a boolean. -/
inductive MVal where
  | s (v : String)
  | n (v : Nat)
  | b (v : Bool)
deriving DecidableEq, Repr

/-- A Python dict used for chunk metadata: insertion-ordered
association list from string keys to values. -/
abbrev Metadata := List (String × MVal)

/-- `d.get(k)`: first entry with key `k`, if any. -/
def metaGet (d : Metadata) (k : String) : Option MVal :=
  (d.find? (fun kv => kv.1 == k)).map Prod.snd

/-- Python `d.update(o)`: keys already in `d` keep their position but
take the value from `o` when present there; keys only in `o` are
appended in `o`'s order. -/
def dictUpdate (d o : Metadata) : Metadata :=
  d.map (fun kv =>
    match metaGet o kv.1 with
    | some v => (kv.1, v)
    | none => kv)
  ++ o.filter (fun kv => (metaGet d kv.1).isNone)

/-- Document text: a Python string viewed as its sequence of characters. -/
abbrev Text := List Char

/-- The settings fields of `config.py` that the modelled code paths read
(`Settings`: RAG configuration plus the Sui package id used by
`upload_document`). -/
structure Settings where
  sui_package_id : String := ""
  sui_module_name : String := "registry"
  chunk_size : Nat := 1000
  chunk_overlap : Nat := 200
  similarity_top_k : Nat := 5
deriving Repr

/-- `get_settings()` with no environment overrides. -/
def defaultSettings : Settings := {}

/-! ## Chunker -/

/-- Character windowing pass of the splitter: windows of at most
`chunkSize` characters, consecutive windows starting `step` characters
apart (`step = chunk_size - chunk_overlap`).  `fuel` bounds the
recursion; callers pass the text length, which suffices for `step ≥ 1`. -/
def splitWindows (chunkSize step : Nat) : Nat → Text → List Text
  | 0, text => [text]
  | fuel + 1, text =>
    if text.length ≤ chunkSize then [text]
    else text.take chunkSize :: splitWindows chunkSize step fuel (text.drop step)

/-- Modelled from the spec: the chunker is the external
`RecursiveCharacterTextSplitter` configured in `RAGService.__init__`
(`chunk_size`, `chunk_overlap`, `length_function=len`), which is not
part of this repository.  Per §4.1: windows of at most `chunk_size`
characters with `chunk_overlap` characters of overlap; empty text
yields an empty sequence; text not exceeding `chunk_size` yields the
single chunk equal to the full text.  The boundary-preferring pass is
modelled by its character-window fallback. -/
def splitText (chunkSize chunkOverlap : Nat) (text : Text) : List Text :=
  if text.length = 0 then []
  else if text.length ≤ chunkSize then [text]
  else splitWindows chunkSize (chunkSize - chunkOverlap) text.length text

/-! ## RAGService.process_document -/

/-- Result dict of `RAGService.process_document`. -/
structure ProcessResult where
  success : Bool
  blob_id : String
  chunks_created : Nat
  text_length : Nat
deriving Repr, DecidableEq

/-- The metadata-preparation loop of `process_document`: for each chunk
index `i`, the dict `{walrus_blob_id, filename, chunk_index: i,
total_chunks: len(chunks)}`, then `chunk_metadata.update(metadata)`
when caller metadata was supplied. -/
def chunk_metadatas (blob_id filename : String) (metadata : Option Metadata)
    (chunks : List Text) : List Metadata :=
  (List.range chunks.length).map (fun i =>
    let chunk_metadata : Metadata :=
      [("walrus_blob_id", .s blob_id), ("filename", .s filename),
       ("chunk_index", .n i), ("total_chunks", .n chunks.length)]
    match metadata with
    | some m => dictUpdate chunk_metadata m
    | none => chunk_metadata)

/-- `RAGService.process_document` after text extraction: split the text,
build per-chunk metadata, and return the chunk texts, their metadata
(as handed to the vector store's `add_texts`) and the result dict. -/
def process_document (settings : Settings) (blob_id : String) (text : Text)
    (filename : String) (metadata : Option Metadata) :
    List Text × List Metadata × ProcessResult :=
  let chunks := splitText settings.chunk_size settings.chunk_overlap text
  let metadatas := chunk_metadatas blob_id filename metadata chunks
  (chunks, metadatas,
    { success := true, blob_id := blob_id,
      chunks_created := chunks.length, text_length := text.length })

/-! ## Vector store (external collaborator) -/

/-- A chunk as stored in the vector index: internal identifier, text,
metadata.  The embedding vector itself is opaque and not modelled; the
store list is kept in the order relevant to the operation (insertion
order for get/delete, descending similarity for search). -/
structure StoredChunk where
  id : String
  page_content : Text
  metadata : Metadata
deriving DecidableEq, Repr

/-- Modelled from the spec: `vectorstore.get(where={"walrus_blob_id":
blob_id})` of the external store — the identifiers of the stored chunks
whose metadata matches the exact-match predicate (§6: the durable store
is queryable by exact-match metadata predicates on `blob_id`).  Python
truthiness of the result is emptiness of this sequence. -/
def storeGet (store : List StoredChunk) (blob_id : String) : List String :=
  (store.filter
    (fun c => metaGet c.metadata "walrus_blob_id" == some (.s blob_id))).map (·.id)

/-- Modelled from the spec: `vectorstore.delete(ids=...)` of the
external store — removes every stored chunk whose identifier is listed. -/
def storeDelete (store : List StoredChunk) (ids : List String) : List StoredChunk :=
  store.filter (fun c => c.id ∉ ids)

/-- The metadata filter `{"walrus_blob_id": {"$in": document_ids}}`
passed to similarity search, or no filter at all. -/
def matchesFilter (fil : Option (List String)) (md : Metadata) : Bool :=
  match fil with
  | none => true
  | some ids =>
    match metaGet md "walrus_blob_id" with
    | some (.s b) => ids.contains b
    | _ => false

/-- Modelled from the spec: `vectorstore.similarity_search` of the
external store (§4.2) — the `k` nearest stored chunks restricted to the
metadata filter.  The store list is taken already in descending
similarity order for the query (the ordering produced by the external
embedding function), so search is: restrict to the filter, take `k`. -/
def similarity_search (store : List StoredChunk) (k : Nat)
    (fil : Option (List String)) : List StoredChunk :=
  (store.filter (fun c => matchesFilter fil c.metadata)).take k

/-! ## RAGService.query_documents -/

/-- A source entry of the query response. -/
structure Source where
  blob_id : String
  excerpt : Text
  chunk_index : Nat
deriving DecidableEq, Repr

/-- The query response dict: answer, sources, echoed question. -/
structure QueryResult where
  answer : String
  sources : List Source
  question : String
deriving DecidableEq, Repr

/-- The fixed answer returned when retrieval is empty. -/
def noInfoAnswer : String :=
  "I couldn\x27t find any relevant information in the documents to answer your question."

/-- `doc.metadata.get("walrus_blob_id", "")`. -/
def metaGetStr (md : Metadata) (k : String) : String :=
  match metaGet md k with
  | some (.s v) => v
  | _ => ""

/-- `doc.metadata.get("chunk_index", 0)`. -/
def metaGetNat (md : Metadata) (k : String) : Nat :=
  match metaGet md k with
  | some (.n v) => v
  | _ => 0

/-- One entry of the sources loop of `query_documents`:
`{"blob_id": ..., "excerpt": page_content[:200] + "..." if longer than
200 else page_content, "chunk_index": ...}`. -/
def mkSource (doc : StoredChunk) : Source :=
  { blob_id := metaGetStr doc.metadata "walrus_blob_id",
    excerpt :=
      if doc.page_content.length > 200
      then doc.page_content.take 200 ++ ['.', '.', '.']
      else doc.page_content,
    chunk_index := metaGetNat doc.metadata "chunk_index" }

/-- `k = top_k or self.settings.similarity_top_k` (Python truthiness:
`top_k` of `0` or `None` falls back to the setting). -/
def effectiveK (top_k : Option Nat) (settings : Settings) : Nat :=
  match top_k with
  | some t => if t ≠ 0 then t else settings.similarity_top_k
  | none => settings.similarity_top_k

/-- The search filter preparation of `query_documents`: a filter is
attached only when `document_ids` is truthy (neither `None` nor empty). -/
def queryFilter : Option (List String) → Option (List String)
  | none => none
  | some ids => if ids = [] then none else some ids

/-- The retrieval step of `query_documents`: similarity search with the
effective `k` and the prepared filter. -/
def retrievedDocs (document_ids : Option (List String)) (top_k : Option Nat)
    (settings : Settings) (store : List StoredChunk) : List StoredChunk :=
  similarity_search store (effectiveK top_k settings) (queryFilter document_ids)

/-- `self.PROMPT.format(context=..., question=...)`: the custom prompt
template of `RAGService.__init__` with the two variables substituted. -/
def promptFormat (context : Text) (question : String) : String :=
  "Use the following pieces of context to answer the question at the end.\n" ++
  "If you don\x27t know the answer, just say that you don\x27t know, " ++
  "don\x27t try to make up an answer.\n\nContext:\n" ++
  String.mk context ++ "\n\nQuestion: " ++ question ++ "\n\nAnswer: "

/-- `RAGService.query_documents`: retrieve, short-circuit on empty
retrieval, otherwise build context, call the LLM (`llm`: the external
model, an oracle from prompt to completion), and attach sources. -/
def query_documents (question : String) (document_ids : Option (List String))
    (top_k : Option Nat) (settings : Settings) (store : List StoredChunk)
    (llm : String → String) : QueryResult :=
  let docs := retrievedDocs document_ids top_k settings store
  if docs = [] then
    { answer := noInfoAnswer, sources := [], question := question }
  else
    let context := List.intercalate ['\n', '\n'] (docs.map (·.page_content))
    let formatted_prompt := promptFormat context question
    let answer := llm formatted_prompt
    let sources := docs.map mkSource
    { answer := answer, sources := sources, question := question }

/-! ## RAGService.delete_document_embeddings / get_document_stats -/

/-- Result dict of `delete_document_embeddings`. -/
structure DeleteResult where
  success : Bool
  deleted_chunks : Nat
deriving DecidableEq, Repr

/-- `RAGService.delete_document_embeddings`: look up the chunks stored
under `blob_id`, delete them by identifier when the lookup result is
truthy, and report the count; returns the updated store alongside. -/
def delete_document_embeddings (store : List StoredChunk) (blob_id : String) :
    List StoredChunk × DeleteResult :=
  let ids := storeGet store blob_id
  if ids ≠ [] then
    (storeDelete store ids, { success := true, deleted_chunks := ids.length })
  else
    (store, { success := true, deleted_chunks := 0 })

/-- Result dict of `get_document_stats`. -/
structure DocStats where
  blob_id : String
  total_chunks : Nat
  exists_ : Bool
deriving DecidableEq, Repr

/-- `RAGService.get_document_stats`: count the chunks stored under
`blob_id`; an empty (falsy) lookup reports `exists: False`. -/
def get_document_stats (store : List StoredChunk) (blob_id : String) : DocStats :=
  let ids := storeGet store blob_id
  if ids ≠ [] then
    { blob_id := blob_id, total_chunks := ids.length, exists_ := true }
  else
    { blob_id := blob_id, total_chunks := 0, exists_ := false }

/-! ## main.py: upload_document -/

/-- `SuiTransactionData` prepared for the frontend to sign. -/
structure SuiTransactionData where
  package_id : String
  module_name : String
  function_name : String
  arg_name : String
  arg_walrus_blob_id : String
  arg_is_public : Bool
  gas_budget : Nat
deriving DecidableEq, Repr

/-- `DocumentUploadResponse` of `schemas.py`. -/
structure DocumentUploadResponse where
  walrus_blob_id : String
  sui_transaction_digest : Option String
  document_id : Option String
  message : String
  sui_transaction_data : Option SuiTransactionData
deriving DecidableEq, Repr

/-- The fixed success message of `upload_document`. -/
def uploadMessage : String :=
  "Document uploaded to Walrus. Please sign the transaction to mint NFT on Sui."

/-- `upload_document` of `main.py`.  The external calls are passed as
outcomes: `walrusResult` is `walrus_service.upload_blob`'s blob id or
its exception; `ragResult` is `rag_service.process_document`'s outcome
given the blob id.  Step 1 failure re-raises and reaches the outer
handler (modelled as `Except.error`, the HTTP 500 detail); step 2 only
prepares transaction data when a Sui package is configured (truthy
`sui_package_id`); step 3's exception is caught and the request
continues without RAG processing. -/
def upload_document (settings : Settings) (filename wallet_address : String)
    (is_public : Bool) (walrusResult : Except String String)
    (ragResult : String → Except String ProcessResult) :
    Except String DocumentUploadResponse :=
  match walrusResult with
  | .error e => .error ("Failed to upload to Walrus: " ++ e)
  | .ok blob_id =>
    let sui_transaction_data : Option SuiTransactionData :=
      if settings.sui_package_id ≠ "" then
        some { package_id := settings.sui_package_id,
               module_name := settings.sui_module_name,
               function_name := "mint_document",
               arg_name := filename,
               arg_walrus_blob_id := blob_id,
               arg_is_public := is_public,
               gas_budget := 10000000 }
      else none
    let response : DocumentUploadResponse :=
      { walrus_blob_id := blob_id,
        sui_transaction_digest := none,
        document_id := none,
        message := uploadMessage,
        sui_transaction_data := sui_transaction_data }
    match ragResult blob_id with
    | .ok _ => .ok response
    | .error _ => .ok response

/-! ## main.py: query_documents endpoint -/

/-- `QueryRequest` of `schemas.py`. -/
structure QueryRequest where
  question : String
  document_ids : Option (List String) := none
  wallet_address : Option String := none
deriving DecidableEq, Repr

/-- The fields of the registry's document dicts that the query endpoint
reads (`doc["walrus_blob_id"]`). -/
structure DocMeta where
  walrus_blob_id : String
deriving DecidableEq, Repr

/-- Python truthiness of an optional string. -/
def strTruthy : Option String → Bool
  | none => false
  | some s => s ≠ ""

/-- Python truthiness of an optional list. -/
def listTruthy : Option (List String) → Bool
  | none => false
  | some l => l ≠ []

/-- The document-set resolution of the query endpoint: when a wallet
address is given and no document ids were, resolve the user's documents
through `sui_service.get_user_documents` (`getUserDocs`, the external
registry client); its exception is caught and logged, leaving
`document_ids` unchanged. -/
def resolveDocumentIds (request : QueryRequest)
    (getUserDocs : String → Except String (List DocMeta)) :
    Option (List String) :=
  let document_ids := request.document_ids
  if strTruthy request.wallet_address ∧ ¬ listTruthy document_ids then
    match request.wallet_address with
    | some w =>
      match getUserDocs w with
      | .ok user_docs => some (user_docs.map (·.walrus_blob_id))
      | .error _ => document_ids
    | none => document_ids
  else document_ids

/-- `query_documents` endpoint of `main.py`: resolve the document set,
then query the RAG service.  The modelled service is total (its
external calls are oracles), so the endpoint's outer handler never
fires here. -/
def queryEndpoint (request : QueryRequest) (settings : Settings)
    (getUserDocs : String → Except String (List DocMeta))
    (store : List StoredChunk) (llm : String → String) :
    Except String QueryResult :=
  let document_ids := resolveDocumentIds request getUserDocs
  .ok (query_documents request.question document_ids none settings store llm)

/-! ## main.py: delete_document endpoint -/

/-- The response dict of the `delete_document` endpoint. -/
structure DeleteEndpointResponse where
  message : String
  blob_id : String
  deleted_chunks : Nat
deriving DecidableEq, Repr

/-- `delete_document` endpoint of `main.py`: deletes the document's RAG
embeddings.  `wallet_address` is accepted for verification but (per the
`TODO` in the source) never consulted. -/
def deleteDocumentEndpoint (store : List StoredChunk) (blob_id : String)
    (wallet_address : String) : List StoredChunk × DeleteEndpointResponse :=
  let (store2, result) := delete_document_embeddings store blob_id
  (store2,
    { message := "Document embeddings deleted",
      blob_id := blob_id,
      deleted_chunks := result.deleted_chunks })

/-! ## Theorems -/

/-- C1: whenever the Walrus blob upload succeeds with `blob_id`, the
upload endpoint returns a successful response carrying that blob id —
for every possible outcome of the RAG ingestion step, including an
exception, which is caught and does not abort the request. -/
theorem upload_success_carries_blob_id (settings : Settings)
    (filename wallet_address : String) (is_public : Bool) (blob_id : String)
    (ragResult : String → Except String ProcessResult) :
    ∃ resp, upload_document settings filename wallet_address is_public
        (Except.ok blob_id) ragResult = Except.ok resp ∧
      resp.walrus_blob_id = blob_id := by
  refine ⟨{ walrus_blob_id := blob_id, sui_transaction_digest := none,
            document_id := none, message := uploadMessage,
            sui_transaction_data :=
              if settings.sui_package_id ≠ "" then
                some { package_id := settings.sui_package_id,
                       module_name := settings.sui_module_name,
                       function_name := "mint_document",
                       arg_name := filename,
                       arg_walrus_blob_id := blob_id,
                       arg_is_public := is_public,
                       gas_budget := 10000000 }
              else none }, ?_, rfl⟩
  unfold upload_document
  dsimp only
  cases ragResult blob_id <;> rfl

/-- C2: when similarity search retrieves no chunks, `query_documents`
returns the fixed no-information answer with an empty source list, and
its result does not depend on the language model (the LLM is never
invoked on that path). -/
theorem empty_retrieval_fixed_answer (question : String)
    (document_ids : Option (List String)) (top_k : Option Nat)
    (settings : Settings) (store : List StoredChunk) (llm llm2 : String → String)
    (h : retrievedDocs document_ids top_k settings store = []) :
    query_documents question document_ids top_k settings store llm
      = { answer := noInfoAnswer, sources := [], question := question } ∧
    query_documents question document_ids top_k settings store llm
      = query_documents question document_ids top_k settings store llm2 := by
  constructor <;> simp [query_documents, h]

theorem empty_retrieval_fixed_answer_witness :
    retrievedDocs none none defaultSettings [] = [] ∧
    query_documents "q" none none defaultSettings [] (fun _ => "a")
      = { answer := noInfoAnswer, sources := [], question := "q" } :=
  ⟨rfl, (empty_retrieval_fixed_answer "q" none none defaultSettings []
      (fun _ => "a") (fun _ => "b") rfl).1⟩

/-- Looking up a reserved key in the `i`-th chunk metadata dict, when
the caller-supplied dict does not carry that key itself. -/
theorem metaGet_chunk_metadatas (blob_id filename : String) (m : Metadata)
    (chunks : List Text) (i : Nat) (hi : i < chunks.length)
    (h1 : metaGet m "chunk_index" = none)
    (h2 : metaGet m "total_chunks" = none) :
    ∃ md, (chunk_metadatas blob_id filename (some m) chunks)[i]? = some md ∧
      metaGet md "chunk_index" = some (.n i) ∧
      metaGet md "total_chunks" = some (.n chunks.length) := by
  refine ⟨dictUpdate [("walrus_blob_id", .s blob_id), ("filename", .s filename),
    ("chunk_index", .n i), ("total_chunks", .n chunks.length)] m, ?_, ?_, ?_⟩
  · simp [chunk_metadatas, List.getElem?_map, List.getElem?_range, hi]
  · cases hw : metaGet m "walrus_blob_id" <;> cases hf : metaGet m "filename" <;>
      simp [dictUpdate, hw, hf, h1, h2] <;>
      simp +decide [metaGet, List.find?]
  · cases hw : metaGet m "walrus_blob_id" <;> cases hf : metaGet m "filename" <;>
      simp [dictUpdate, hw, hf, h1, h2] <;>
      simp +decide [metaGet, List.find?]

/-- C4: `process_document` attaches one metadata dict per chunk; the
`i`-th dict records `chunk_index = i` — so the recorded indices are
exactly the contiguous integers `0..total_chunks-1` — and every dict
records `total_chunks` equal to the number of chunks the splitter
produced.  The hypotheses say the caller-supplied metadata (owner
identity and visibility flag in the upload flow) does not itself carry
the reserved keys, which Python's `dict.update` would otherwise let
override them. -/
theorem process_metadata_indices (settings : Settings) (blob_id : String)
    (text : Text) (filename : String) (m : Metadata)
    (h1 : metaGet m "chunk_index" = none)
    (h2 : metaGet m "total_chunks" = none) :
    (process_document settings blob_id text filename (some m)).2.1.length
        = (process_document settings blob_id text filename (some m)).1.length ∧
    ∀ i, i < (process_document settings blob_id text filename (some m)).1.length →
      ∃ md, (process_document settings blob_id text filename (some m)).2.1[i]?
          = some md ∧
        metaGet md "chunk_index" = some (.n i) ∧
        metaGet md "total_chunks"
          = some (.n (process_document settings blob_id text filename
              (some m)).1.length) := by
  constructor
  · simp [process_document, chunk_metadatas]
  · intro i hi
    exact metaGet_chunk_metadatas blob_id filename m _ i hi h1 h2

theorem process_metadata_indices_witness :
    ∃ md, (process_document defaultSettings "b" ['h', 'i'] "f.txt"
        (some [("owner", MVal.s "0xabc"), ("is_public", MVal.b false)])).2.1[0]?
        = some md ∧
      metaGet md "chunk_index" = some (.n 0) ∧
      metaGet md "total_chunks"
        = some (.n (process_document defaultSettings "b" ['h', 'i'] "f.txt"
            (some [("owner", MVal.s "0xabc"),
                   ("is_public", MVal.b false)])).1.length) :=
  (process_metadata_indices defaultSettings "b" ['h', 'i'] "f.txt"
    [("owner", MVal.s "0xabc"), ("is_public", MVal.b false)]
    (by decide) (by decide)).2 0 (by decide)

/-- C5: deleting the embeddings of a blob identifier with no stored
chunks succeeds with `deleted_chunks = 0` and leaves the store intact
(no error is raised on this path). -/
theorem delete_unknown_blob (store : List StoredChunk) (blob_id : String)
    (h : storeGet store blob_id = []) :
    (delete_document_embeddings store blob_id).2
      = { success := true, deleted_chunks := 0 } ∧
    (delete_document_embeddings store blob_id).1 = store := by
  constructor <;> simp [delete_document_embeddings, h]

theorem delete_unknown_blob_witness :
    storeGet [] "unknown-blob" = [] ∧
    (delete_document_embeddings [] "unknown-blob").2
      = { success := true, deleted_chunks := 0 } :=
  ⟨rfl, (delete_unknown_blob [] "unknown-blob" rfl).1⟩

/-- C8: the chunker maps empty text to the empty chunk sequence, and
any non-empty text shorter than `chunk_size` to the single chunk equal
to the full text. -/
theorem splitter_edge_cases (chunkSize chunkOverlap : Nat) :
    splitText chunkSize chunkOverlap [] = [] ∧
    ∀ text : Text, text ≠ [] → text.length < chunkSize →
      splitText chunkSize chunkOverlap text = [text] := by
  constructor
  · rfl
  · intro text h1 h2
    unfold splitText
    rw [if_neg (by simpa using h1), if_pos (Nat.le_of_lt h2)]

theorem splitter_edge_cases_witness :
    splitText defaultSettings.chunk_size defaultSettings.chunk_overlap [] = [] ∧
    splitText defaultSettings.chunk_size defaultSettings.chunk_overlap
      ['h', 'i'] = [['h', 'i']] :=
  ⟨(splitter_edge_cases defaultSettings.chunk_size defaultSettings.chunk_overlap).1,
   (splitter_edge_cases defaultSettings.chunk_size defaultSettings.chunk_overlap).2
     ['h', 'i'] (by decide) (by decide)⟩

/-- C3: for a non-empty retrieval, `query_documents` builds the sources
1:1 with the retrieved chunks in retrieval order; each excerpt is the
full chunk text when it has at most 200 characters and otherwise its
first 200 characters followed by the three-dot ellipsis marker, so no
excerpt exceeds 203 characters. -/
theorem query_sources_per_chunk (question : String)
    (document_ids : Option (List String)) (top_k : Option Nat)
    (settings : Settings) (store : List StoredChunk) (llm : String → String)
    (h : retrievedDocs document_ids top_k settings store ≠ []) :
    (query_documents question document_ids top_k settings store llm).sources
        = (retrievedDocs document_ids top_k settings store).map mkSource ∧
    (∀ doc ∈ retrievedDocs document_ids top_k settings store,
      (mkSource doc).excerpt =
        if doc.page_content.length ≤ 200 then doc.page_content
        else doc.page_content.take 200 ++ ['.', '.', '.']) ∧
    (∀ s ∈ (query_documents question document_ids top_k settings store llm).sources,
      s.excerpt.length ≤ 203) := by
  have hsources : (query_documents question document_ids top_k settings store
      llm).sources = (retrievedDocs document_ids top_k settings store).map mkSource := by
    simp [query_documents, h]
  refine ⟨hsources, ?_, ?_⟩
  · intro doc _
    by_cases hlen : doc.page_content.length ≤ 200
    · simp only [mkSource]
      rw [if_neg (Nat.not_lt.mpr hlen), if_pos hlen]
    · simp only [mkSource]
      rw [if_pos (Nat.lt_of_not_le hlen), if_neg hlen]
  · intro s hs
    rw [hsources] at hs
    obtain ⟨doc, -, rfl⟩ := List.mem_map.mp hs
    by_cases hlen : doc.page_content.length ≤ 200
    · simp only [mkSource]
      rw [if_neg (Nat.not_lt.mpr hlen)]
      omega
    · simp only [mkSource]
      rw [if_pos (Nat.lt_of_not_le hlen)]
      simp only [List.length_append, List.length_take, List.length_cons,
        List.length_nil]
      omega

theorem query_sources_per_chunk_witness :
    retrievedDocs none none defaultSettings
        [{ id := "c0", page_content := ['h', 'i'],
           metadata := [("walrus_blob_id", MVal.s "b"), ("chunk_index", MVal.n 0)] }]
      ≠ [] ∧
    (query_documents "q" none none defaultSettings
        [{ id := "c0", page_content := ['h', 'i'],
           metadata := [("walrus_blob_id", MVal.s "b"), ("chunk_index", MVal.n 0)] }]
        (fun _ => "a")).sources
      = (retrievedDocs none none defaultSettings
          [{ id := "c0", page_content := ['h', 'i'],
             metadata := [("walrus_blob_id", MVal.s "b"), ("chunk_index", MVal.n 0)] }]).map
          mkSource :=
  ⟨by decide,
   (query_sources_per_chunk "q" none none defaultSettings
      [{ id := "c0", page_content := ['h', 'i'],
         metadata := [("walrus_blob_id", MVal.s "b"), ("chunk_index", MVal.n 0)] }]
      (fun _ => "a") (by decide)).1⟩

/-- Every chunk stored under a blob identifier is removed when the
identifiers looked up for that blob are deleted. -/
theorem storeGet_storeDelete_self (store : List StoredChunk) (blob_id : String) :
    storeGet (storeDelete store (storeGet store blob_id)) blob_id = [] := by
  simp only [storeGet, storeDelete, List.filter_filter, List.map_eq_nil_iff,
    List.filter_eq_nil_iff]
  intro c hc hcontra
  rw [Bool.and_eq_true] at hcontra
  obtain ⟨h1, h2⟩ := hcontra
  have hmem : c.id ∈ (store.filter
      (fun c => metaGet c.metadata "walrus_blob_id" == some (.s blob_id))).map (·.id) :=
    List.mem_map_of_mem _ (List.mem_filter.mpr ⟨hc, h1⟩)
  exact (of_decide_eq_true h2) hmem

/-- C6: deleting a blob identifier's embeddings removes every stored
chunk carrying that identifier and reports their count; afterwards the
stats for that identifier show zero chunks and non-existence. -/
theorem delete_then_count_zero (store : List StoredChunk) (blob_id : String) :
    (delete_document_embeddings store blob_id).2.deleted_chunks
        = (storeGet store blob_id).length ∧
    storeGet (delete_document_embeddings store blob_id).1 blob_id = [] ∧
    get_document_stats (delete_document_embeddings store blob_id).1 blob_id
      = { blob_id := blob_id, total_chunks := 0, exists_ := false } := by
  by_cases h : storeGet store blob_id = []
  · refine ⟨by simp [delete_document_embeddings, h], by simp [delete_document_embeddings, h], ?_⟩
    simp [delete_document_embeddings, h, get_document_stats]
  · have hdel : storeGet (delete_document_embeddings store blob_id).1 blob_id = [] := by
      simpa [delete_document_embeddings, h] using storeGet_storeDelete_self store blob_id
    refine ⟨by simp [delete_document_embeddings, h], hdel, ?_⟩
    simp [get_document_stats, hdel]

/-- C7: when the query carries a wallet address but no document ids and
the registry lookup of the user's documents fails, the query endpoint
still answers: the failure is swallowed, the RAG query runs with the
request's original (falsy) document ids, and no search restriction is
applied. -/
theorem resolution_failure_non_fatal (request : QueryRequest) (settings : Settings)
    (store : List StoredChunk) (llm : String → String) (w e : String)
    (getUserDocs : String → Except String (List DocMeta))
    (hw : request.wallet_address = some w) (hw2 : w ≠ "")
    (hids : listTruthy request.document_ids = false)
    (hfail : getUserDocs w = .error e) :
    queryEndpoint request settings getUserDocs store llm
      = .ok (query_documents request.question request.document_ids none settings
          store llm) ∧
    queryFilter request.document_ids = none := by
  constructor
  · simp [queryEndpoint, resolveDocumentIds, hw, hids, hfail, strTruthy, hw2]
  · cases hd : request.document_ids with
    | none => rfl
    | some l =>
      rw [hd] at hids
      simp only [listTruthy] at hids
      simp at hids
      simp [queryFilter, hids]

theorem resolution_failure_non_fatal_witness :
    queryEndpoint { question := "q", document_ids := none,
                    wallet_address := some "0xabc" } defaultSettings
        (fun _ => .error "boom") [] (fun _ => "a")
      = .ok (query_documents "q" none none defaultSettings [] (fun _ => "a")) :=
  (resolution_failure_non_fatal
    { question := "q", document_ids := none, wallet_address := some "0xabc" }
    defaultSettings [] (fun _ => "a") "0xabc" "boom"
    (fun _ => .error "boom") rfl (by decide) rfl rfl).1

/-- C9: an empty document-id list (explicit, or resolved from an owner
with zero registered documents) yields no metadata filter at all: the
search's candidate set is the whole store, and the query result equals
the fully unrestricted query's. -/
theorem empty_document_set_unrestricted (question : String) (top_k : Option Nat)
    (settings : Settings) (store : List StoredChunk) (llm : String → String)
    (w : String) (getUserDocs : String → Except String (List DocMeta))
    (hw : w ≠ "") (hres : getUserDocs w = .ok []) :
    queryFilter (some []) = none ∧
    store.filter (fun c => matchesFilter (queryFilter (some [])) c.metadata)
      = store ∧
    query_documents question (some []) top_k settings store llm
      = query_documents question none top_k settings store llm ∧
    resolveDocumentIds { question := question, document_ids := none,
                         wallet_address := some w } getUserDocs = some [] := by
  refine ⟨rfl, ?_, ?_, ?_⟩
  · simp [matchesFilter, queryFilter]
  · rfl
  · simp [resolveDocumentIds, strTruthy, listTruthy, hw, hres]

theorem empty_document_set_unrestricted_witness :
    query_documents "q" (some []) none defaultSettings [] (fun _ => "a")
      = query_documents "q" none none defaultSettings [] (fun _ => "a") ∧
    resolveDocumentIds { question := "q", document_ids := none,
                         wallet_address := some "0xabc" } (fun _ => .ok [])
      = some [] :=
  ⟨(empty_document_set_unrestricted "q" none defaultSettings [] (fun _ => "a")
      "0xabc" (fun _ => .ok []) (by decide) rfl).2.2.1,
   (empty_document_set_unrestricted "q" none defaultSettings [] (fun _ => "a")
      "0xabc" (fun _ => .ok []) (by decide) rfl).2.2.2⟩

/-- C10: the embedding-deletion endpoint's observable behaviour (new
store and response) is identical for any two `wallet_address` values:
no ownership verification gates the deletion. -/
theorem delete_ignores_wallet (store : List StoredChunk)
    (blob_id w1 w2 : String) :
    deleteDocumentEndpoint store blob_id w1
      = deleteDocumentEndpoint store blob_id w2 := rfl

end RagPython
